import Mathlib

/-!
Verification of the AutoThreads pipeline (`src/AutoThreads.ts`) of the
effect-ts discord bot: eligibility filtering for incoming messages, the
classifier call with its retry policy and deterministic fallback, thread
creation with title truncation, the conditional code-fence hint, the
permission-gated edit/archive interaction flows, and the outer error
boundary.

The TypeScript effect pipelines are embedded shallowly: each fallible,
side-effecting step becomes explicit value passing; the REST/gateway
collaborators are represented by an environment record that supplies each
outbound call's outcome, and the side effects actually issued are recorded
as an explicit action trace.
-/

namespace AutoThreads

/-- `Discord.MessageType.DEFAULT` (dfx / Discord API constant). -/
def MessageTypeDEFAULT : Nat := 0

/-- `Discord.ChannelType.GUILD_TEXT` (dfx / Discord API constant). -/
def ChannelTypeGUILD_TEXT : Nat := 0

/-- `Discord.PermissionFlag.MANAGE_CHANNELS` = 1 <<< 4 (Discord API constant). -/
def MANAGE_CHANNELS : Nat := 16

/-- `Discord.InteractionCallbackType.CHANNEL_MESSAGE_WITH_SOURCE`. -/
def CHANNEL_MESSAGE_WITH_SOURCE : Nat := 4

/-- `Discord.InteractionCallbackType.DEFERRED_UPDATE_MESSAGE`. -/
def DEFERRED_UPDATE_MESSAGE : Nat := 6

/-- `Discord.InteractionCallbackType.MODAL`. -/
def MODAL : Nat := 9

/-- The author object of a gateway message payload: `bot` is an optional
JSON field, absent for normal users. -/
structure Author where
  id : String
  username : String
  bot : Option Bool
deriving Repr, DecidableEq

/-- An incoming `MESSAGE_CREATE` payload, restricted to the fields the
pipeline reads. `member_nick` collapses `message.member?.nick` (member
absent, or nick null, both give `none`). -/
structure Message where
  id : String
  channel_id : String
  guild_id : Option String
  type : Nat
  author : Author
  member_nick : Option String
  content : String
deriving Repr, DecidableEq

/-- Channel metadata as served by the `ChannelsCache` collaborator. `topic`
and `name` are nullable in the Discord API. -/
structure Channel where
  id : String
  topic : Option String
  type : Nat
  name : Option String
deriving Repr, DecidableEq

/-- The structured classification returned by the OpenAI function call
(class `MessageInfo` in the source). -/
structure MessageInfo where
  short_title : String
  has_code_examples : Bool
  has_code_fences : Bool
deriving Repr, DecidableEq

/-- `MessageInfo#missingCodeFences`: code examples present but no fences. -/
def MessageInfo.missingCodeFences (i : MessageInfo) : Bool :=
  i.has_code_examples && !i.has_code_fences

/-- JS `haystack.includes(needle)` as used by `Schema.includes(topicKeyword)`:
the needle's characters occur contiguously inside the haystack. -/
def strIncludes (haystack needle : String) : Bool :=
  decide (needle.data <:+: haystack.data)

/-- The `EligibleMessage` schema: decoding succeeds iff the message type is
`DEFAULT` and `author.bot` is absent or the literal `false`
(`Schema.optional(Schema.Literal(false))`). -/
def eligibleMessage (m : Message) : Bool :=
  m.type == MessageTypeDEFAULT && m.author.bot != some true

/-- The `EligibleChannel` schema for a configured `topicKeyword`: decoding
succeeds iff the topic is a string containing the keyword and the channel
type is `GUILD_TEXT`. -/
def eligibleChannel (topicKeyword : String) (c : Channel) : Bool :=
  match c.topic with
  | none => false
  | some t => strIncludes t topicKeyword && c.type == ChannelTypeGUILD_TEXT

/-- Outcome of one call to `openai.fn(messageInfo, content)`: success, or a
failure carrying its `_tag` (`"OpenAIError"` for the transient service
error, other tags for non-retryable failures). -/
inductive ClassifierResult where
  | ok (info : MessageInfo)
  | err (tag : String)
deriving Repr, DecidableEq

/-- `Effect.retry` with `retryPolicy = Schedule.fixed(500ms) ∩ Schedule.recurs(2)`
and `while: err._tag === "OpenAIError"`. `attempt i` is the outcome of the
i-th call (0-based); `fuel` is the number of retries the schedule still
allows (2 at the start). Returns the total number of attempts made, the
list of inter-attempt delays in milliseconds, and the final outcome. -/
def retryLoop (attempt : Nat → ClassifierResult) (i fuel : Nat) :
    Nat × List Nat × ClassifierResult :=
  match attempt i with
  | .ok info => (i + 1, [], .ok info)
  | .err tag =>
    match fuel with
    | 0 => (i + 1, [], .err tag)
    | fuel' + 1 =>
      if tag = "OpenAIError" then
        let r := retryLoop attempt (i + 1) fuel'
        (r.1, 500 :: r.2.1, r.2.2)
      else (i + 1, [], .err tag)

/-- The full retried classifier call: first attempt at index 0, at most 2
retries. -/
def runClassifier (attempt : Nat → ClassifierResult) :
    Nat × List Nat × ClassifierResult :=
  retryLoop attempt 0 2

/-- `Option.fromNullable(message.member?.nick) |> getOrElse(author.username)`. -/
def displayName (m : Message) : String :=
  m.member_nick.getD m.author.username

/-- The deterministic fallback classification built by `orElseSucceed`. -/
def fallbackInfo (m : Message) : MessageInfo :=
  { short_title := displayName m ++ "'s thread"
    has_code_examples := false
    has_code_fences := false }

/-- The classification the pipeline ends up using: the classifier's result
if the retried call succeeded, the fallback otherwise. -/
def usedInfo (attempt : Nat → ClassifierResult) (m : Message) : MessageInfo :=
  match (runClassifier attempt).2.2 with
  | .ok info => info
  | .err _ => fallbackInfo m

/-- Modelled from the spec: `Str.truncate` lives in `bot/utils/String`,
which is not among the repository files available here; the spec fixes the
policy as a hard cut at the character limit, not word-boundary aware. -/
def truncate (s : String) (n : Nat) : String :=
  ⟨s.data.take n⟩

/-- The fixed code-fence hint message content (the `${"\\`\\`\\`"}` splices
produce literal backslash-escaped fences). -/
def hintContent : String :=
  "It looks like your code examples might be missing code fences.\n\nYou can wrap your code like this:\n\n\\`\\`\\`ts\nconst a = 123\n\\`\\`\\`\n"

/-- An outbound side effect issued by the handlers, in issue order. -/
inductive Action where
  | getChannel (guildId channelId : String)
  | startThread (channelId messageId name : String) (autoArchiveDuration : Nat)
  | postControls (threadId editCustomId archiveCustomId : String)
  | postMessage (threadId content : String)
  | modifyChannelName (channelId name : String)
  | archiveChannel (channelId : String)
deriving Repr, DecidableEq

/-- An error travelling on the pipeline's error channel before the outer
catches: a schema `ParseError` (from either eligibility decode), a
`ChannelsCache` lookup failure, or a REST call failure. -/
inductive PipelineError where
  | parse (which : String)
  | cacheMiss
  | rest (op : String) (e : String)
deriving Repr, DecidableEq

/-- Environment for one `MESSAGE_CREATE` event: the outcome each external
collaborator would produce if called. `channel` is the `ChannelsCache`
lookup result, `attempt` the classifier outcomes per attempt index,
`threadResult` the id of the created thread or a failure, and the two
`createMessage` outcomes follow. -/
structure MsgEnv where
  channel : Option Channel
  attempt : Nat → ClassifierResult
  threadResult : Except String String
  controlsResult : Except String Unit
  hintResult : Except String Unit

/-- The issued actions together with the classifier attempt count and
inter-attempt delays observed while handling one event. -/
structure Trace where
  actions : List Action
  attemptCount : Nat
  delays : List Nat
deriving Repr, DecidableEq

/-- The `handleMessages` pipeline up to (not including) the outer
`catchTags`/`catchAllCause`: eligibility decodes, the retried classifier
call with fallback, `startThreadFromMessage` with the truncated title and
fixed 1440-minute auto-archive, the controls message with
`edit_{authorId}`/`archive_{authorId}` buttons, and the conditional hint.
Returns the trace of issued actions and the error, if any, still on the
error channel. -/
def runPipeline (topicKeyword : String) (env : MsgEnv) (m : Message) :
    Trace × Option PipelineError :=
  if eligibleMessage m then
    let getAct := Action.getChannel (m.guild_id.getD "") m.channel_id
    match env.channel with
    | none => (⟨[getAct], 0, []⟩, some .cacheMiss)
    | some ch =>
      if eligibleChannel topicKeyword ch then
        let c := runClassifier env.attempt
        let info := usedInfo env.attempt m
        let tAct := Action.startThread ch.id m.id (truncate info.short_title 100) 1440
        match env.threadResult with
        | .error e => (⟨[getAct, tAct], c.1, c.2.1⟩, some (.rest "startThreadFromMessage" e))
        | .ok tid =>
          let cAct := Action.postControls tid
            ("edit_" ++ m.author.id) ("archive_" ++ m.author.id)
          match env.controlsResult with
          | .error e => (⟨[getAct, tAct, cAct], c.1, c.2.1⟩, some (.rest "createMessage" e))
          | .ok _ =>
            if info.missingCodeFences then
              let hAct := Action.postMessage tid hintContent
              match env.hintResult with
              | .error e =>
                (⟨[getAct, tAct, cAct, hAct], c.1, c.2.1⟩, some (.rest "createMessage" e))
              | .ok _ => (⟨[getAct, tAct, cAct, hAct], c.1, c.2.1⟩, none)
            else (⟨[getAct, tAct, cAct], c.1, c.2.1⟩, none)
      else (⟨[getAct], 0, []⟩, some (.parse "channel"))
  else (⟨[], 0, []⟩, some (.parse "message"))

/-- What one event handler invocation produced after the outer boundary:
the trace, plus what was logged. `ParseError`s go to the debug log
(`catchTags`), everything else to the error log (`catchAllCause`); nothing
escapes. -/
structure HandlerOutcome where
  trace : Trace
  debugLogged : Option PipelineError
  errorLogged : Option PipelineError
deriving Repr, DecidableEq

/-- One full `MESSAGE_CREATE` handler invocation: the pipeline with its
`catchTags({ ParseError: logDebug })` and `catchAllCause(logError)`
boundary applied. Total: every error is converted into a log entry. -/
def handleMessage (topicKeyword : String) (env : MsgEnv) (m : Message) :
    HandlerOutcome :=
  match runPipeline topicKeyword env m with
  | (t, none) => ⟨t, none, none⟩
  | (t, some (.parse w)) => ⟨t, some (.parse w), none⟩
  | (t, some e) => ⟨t, none, some e⟩

/-- A stream of independent `MESSAGE_CREATE` events, each with its own
collaborator outcomes, processed by the subscribed handler. -/
def handleEvents (topicKeyword : String) (evs : List (Message × MsgEnv)) :
    List HandlerOutcome :=
  evs.map fun ev => handleMessage topicKeyword ev.2 ev.1

/-- Does the trace contain a thread-creation request? -/
def createsThread (t : Trace) : Bool :=
  t.actions.any fun a =>
    match a with
    | .startThread _ _ _ _ => true
    | _ => false

/-- Is the action a posted plain-content message (the hint is the only
one the pipeline sends)? -/
def isHintPost (a : Action) : Bool :=
  match a with
  | .postMessage _ _ => true
  | _ => false

/-- The context of one component or modal interaction, restricted to the
fields the handlers read: the component custom id, the invoking member's
user id and permission bit set, and the channel/guild of the interaction. -/
structure InteractionCtx where
  custom_id : String
  userId : String
  permissions : Nat
  channel_id : String
  guild_id : String
deriving Repr, DecidableEq

/-- `Perms.has(Discord.PermissionFlag.MANAGE_CHANNELS)`: the permission
bit set contains the manage-channels bit. -/
def hasManage (perms : Nat) : Bool :=
  perms &&& MANAGE_CHANNELS == MANAGE_CHANNELS

/-- JS `String.prototype.split("_")` on the character list: splits at every
underscore, keeping empty segments. -/
def splitUnderscore : List Char → List (List Char)
  | [] => [[]]
  | c :: cs =>
    if c = '_' then [] :: splitUnderscore cs
    else
      match splitUnderscore cs with
      | [] => [[c]]
      | seg :: rest => (c :: seg) :: rest

/-- `ctx.custom_id.split("_")[1]`: the segment between the first and second
underscore, `none` when the id has no underscore. -/
def parseAuthorId (customId : String) : Option String :=
  ((splitUnderscore customId.data).map List.asString)[1]?

/-- The `canEdit` test of `withEditPermissions`: the invoking user is the
author embedded in the custom id, or holds `MANAGE_CHANNELS`. -/
def canEdit (ctx : InteractionCtx) : Bool :=
  parseAuthorId ctx.custom_id == some ctx.userId || hasManage ctx.permissions

/-- An error on an interaction handler's error channel: the
`PermissionsError{action, subject}` raised by `withEditPermissions`, or a
`ChannelsCache` lookup failure. -/
inductive IxError where
  | permissions (action subject : String)
  | cacheMiss
deriving Repr, DecidableEq

/-- An interaction response the handlers return. -/
inductive Response where
  | modal (customId title fieldCustomId fieldLabel : String)
      (maxLength : Nat) (value : String)
  | deferredUpdate
  | ephemeral (content : String)
deriving Repr, DecidableEq

/-- The Discord callback type each response is delivered with. -/
def Response.callbackType : Response → Nat
  | .modal _ _ _ _ _ _ => MODAL
  | .deferredUpdate => DEFERRED_UPDATE_MESSAGE
  | .ephemeral _ => CHANNEL_MESSAGE_WITH_SOURCE

/-- A traced interaction effect: the actions it issues and its result. -/
def IxEff (α : Type) := List Action × Except IxError α

/-- `withEditPermissions`: run the permission check first; only when it
passes, run the wrapped effect (passed as a thunk, since the source wraps
an unevaluated effect value). On denial, raise
`PermissionsError{action: "edit", subject: "thread"}` with no side effect. -/
def withEditPermissions (ctx : InteractionCtx) (self : Unit → IxEff Response) :
    IxEff Response :=
  if canEdit ctx then self ()
  else ([], .error (.permissions "edit" "thread"))

/-- The `edit_`-prefixed component handler: authorized via
`withEditPermissions`; on success it looks the channel up in the cache and
responds with the pre-filled title modal. `channel` is the cache lookup's
outcome. -/
def editHandler (channel : Option Channel) (ctx : InteractionCtx) :
    IxEff Response :=
  withEditPermissions ctx fun _ =>
    match channel with
    | none => ([Action.getChannel ctx.guild_id ctx.channel_id], .error .cacheMiss)
    | some ch =>
      ([Action.getChannel ctx.guild_id ctx.channel_id],
        .ok (.modal "edit" "Edit title" "title" "New title" 100 (ch.name.getD "")))

/-- The `archive_`-prefixed component handler: authorized via
`withEditPermissions`; on success it archives the interaction's channel
and acknowledges with a deferred update. -/
def archiveHandler (ctx : InteractionCtx) : IxEff Response :=
  withEditPermissions ctx fun _ =>
    ([Action.archiveChannel ctx.channel_id], .ok .deferredUpdate)

/-- The modal-submit handler for id `"edit"`: reads the submitted title
and the interaction's channel id, renames the channel to exactly the
submitted value, and acknowledges with a deferred update. No
re-authorization and no validation of the title. -/
def editSubmitHandler (title : String) (ctx : InteractionCtx) :
    IxEff Response :=
  ([Action.modifyChannelName ctx.channel_id title], .ok .deferredUpdate)

/-- The interaction builder's outer boundary:
`catchTagRespond("PermissionsError", ...)` converts a denial into an
ephemeral message `You don't have permission to {action} this {subject}.`;
any other failure falls to `catchAllCause(logError)` and yields no
response. -/
def runIx (r : IxEff Response) : List Action × Option Response :=
  match r with
  | (as, .ok resp) => (as, some resp)
  | (as, .error (.permissions a s)) =>
    (as, some (.ephemeral ("You don't have permission to " ++ a ++ " this " ++ s ++ ".")))
  | (as, .error .cacheMiss) => (as, none)

/-! ### Concrete instances used by witnesses -/

/-- A channel whose topic contains the keyword `"questions"`. -/
def exChannel : Channel := ⟨"ch1", some "ask your questions here", 0, some "help"⟩

/-- An eligible human-authored message. -/
def exMessage : Message :=
  ⟨"m1", "ch1", some "g1", 0, ⟨"a1", "alice", none⟩, none, "hello"⟩

/-- An environment whose classifier fails every attempt transiently. -/
def exEnvFail : MsgEnv :=
  ⟨some exChannel, fun _ => .err "OpenAIError", .ok "t1", .ok (), .ok ()⟩

/-- An environment whose classifier succeeds with
`has_code_examples = true, has_code_fences = false`. -/
def exEnvOk : MsgEnv :=
  ⟨some exChannel, fun _ => .ok ⟨"Title", true, false⟩, .ok "t1", .ok (), .ok ()⟩

/-- An interaction whose invoking user neither matches the embedded author
id nor holds `MANAGE_CHANNELS`. -/
def exCtxDenied : InteractionCtx := ⟨"archive_123", "999", 0, "c1", "g1"⟩

/-! ### Helper lemmas -/

theorem handleMessage_trace (kw : String) (env : MsgEnv) (m : Message) :
    (handleMessage kw env m).trace = (runPipeline kw env m).1 := by
  unfold handleMessage
  rcases hr : runPipeline kw env m with ⟨t, e⟩
  cases e with
  | none => rfl
  | some pe => cases pe <;> rfl

theorem retryLoop_ok {attempt : Nat → ClassifierResult} {i : Nat} {info : MessageInfo}
    (h : attempt i = .ok info) (fuel : Nat) :
    retryLoop attempt i fuel = (i + 1, [], .ok info) := by
  unfold retryLoop; rw [h]

theorem retryLoop_err_zero {attempt : Nat → ClassifierResult} {i : Nat} {tag : String}
    (h : attempt i = .err tag) :
    retryLoop attempt i 0 = (i + 1, [], .err tag) := by
  unfold retryLoop; rw [h]

theorem retryLoop_err_stop {attempt : Nat → ClassifierResult} {i : Nat} {tag : String}
    (h : attempt i = .err tag) (ht : tag ≠ "OpenAIError") (fuel : Nat) :
    retryLoop attempt i fuel = (i + 1, [], .err tag) := by
  unfold retryLoop; rw [h]
  cases fuel with
  | zero => rfl
  | succ fuel' => simp [ht]

theorem retryLoop_err_retry {attempt : Nat → ClassifierResult} {i : Nat}
    (h : attempt i = .err "OpenAIError") (fuel : Nat) :
    retryLoop attempt i (fuel + 1) =
      ((retryLoop attempt (i + 1) fuel).1,
        500 :: (retryLoop attempt (i + 1) fuel).2.1,
        (retryLoop attempt (i + 1) fuel).2.2) := by
  conv_lhs => unfold retryLoop
  rw [h]; simp

theorem runPipeline_not_eligible_message {kw : String} {env : MsgEnv} {m : Message}
    (hm : eligibleMessage m = false) :
    runPipeline kw env m = (⟨[], 0, []⟩, some (.parse "message")) := by
  unfold runPipeline; rw [hm]; rfl

theorem runPipeline_no_channel {kw : String} {env : MsgEnv} {m : Message}
    (hm : eligibleMessage m = true) (hc : env.channel = none) :
    runPipeline kw env m =
      (⟨[.getChannel (m.guild_id.getD "") m.channel_id], 0, []⟩, some .cacheMiss) := by
  unfold runPipeline; rw [hm, hc]; rfl

theorem runPipeline_bad_channel {kw : String} {env : MsgEnv} {m : Message} {ch : Channel}
    (hm : eligibleMessage m = true) (hc : env.channel = some ch)
    (hel : eligibleChannel kw ch = false) :
    runPipeline kw env m =
      (⟨[.getChannel (m.guild_id.getD "") m.channel_id], 0, []⟩,
        some (.parse "channel")) := by
  unfold runPipeline; rw [hm, hc]; simp [hel]

theorem runPipeline_eligible {kw : String} {env : MsgEnv} {m : Message} {ch : Channel}
    (hm : eligibleMessage m = true) (hc : env.channel = some ch)
    (hel : eligibleChannel kw ch = true) :
    ∃ rest,
      (runPipeline kw env m).1.actions =
        Action.getChannel (m.guild_id.getD "") m.channel_id ::
        Action.startThread ch.id m.id
          (truncate (usedInfo env.attempt m).short_title 100) 1440 :: rest ∧
      (runPipeline kw env m).1.attemptCount = (runClassifier env.attempt).1 ∧
      (runPipeline kw env m).1.delays = (runClassifier env.attempt).2.1 := by
  unfold runPipeline
  rw [hm, hc]
  simp only [hel, if_true]
  cases env.threadResult with
  | error e => exact ⟨[], rfl, rfl, rfl⟩
  | ok tid =>
    cases env.controlsResult with
    | error e => exact ⟨[_], rfl, rfl, rfl⟩
    | ok _ =>
      by_cases hmiss : (usedInfo env.attempt m).missingCodeFences = true
      · simp only [hmiss, if_true]
        cases env.hintResult with
        | error e => exact ⟨[_, _], rfl, rfl, rfl⟩
        | ok _ => exact ⟨[_, _], rfl, rfl, rfl⟩
      · simp only [hmiss, if_false]
        exact ⟨[_], rfl, rfl, rfl⟩

theorem runPipeline_success {kw : String} {env : MsgEnv} {m : Message} {ch : Channel}
    {tid : String}
    (hm : eligibleMessage m = true) (hc : env.channel = some ch)
    (hel : eligibleChannel kw ch = true) (hth : env.threadResult = .ok tid)
    (hcm : env.controlsResult = .ok ()) (hh : env.hintResult = .ok ()) :
    (runPipeline kw env m).1.actions =
      [Action.getChannel (m.guild_id.getD "") m.channel_id,
       Action.startThread ch.id m.id
         (truncate (usedInfo env.attempt m).short_title 100) 1440,
       Action.postControls tid ("edit_" ++ m.author.id) ("archive_" ++ m.author.id)]
      ++ (if (usedInfo env.attempt m).missingCodeFences then
            [Action.postMessage tid hintContent] else []) := by
  unfold runPipeline
  rw [hm, hc, hth, hcm, hh]
  simp only [hel, if_true]
  by_cases hmiss : (usedInfo env.attempt m).missingCodeFences = true
  · simp [hmiss]
  · simp [hmiss]

theorem eligibleMessage_iff (m : Message) :
    eligibleMessage m = true ↔
      (m.type = MessageTypeDEFAULT ∧ m.author.bot ≠ some true) := by
  simp [eligibleMessage]

theorem eligibleChannel_iff (kw : String) (ch : Channel) :
    eligibleChannel kw ch = true ↔
      (ch.type = ChannelTypeGUILD_TEXT ∧
        ∃ t, ch.topic = some t ∧ kw.data <:+: t.data) := by
  unfold eligibleChannel
  cases h : ch.topic with
  | none => simp
  | some t =>
    simp only [strIncludes, Bool.and_eq_true, decide_eq_true_eq, beq_iff_eq,
      Option.some.injEq]
    constructor
    · rintro ⟨hi, ht⟩; exact ⟨ht, t, rfl, hi⟩
    · rintro ⟨ht, t', ht', hi⟩; cases ht'; exact ⟨hi, ht⟩

theorem runClassifier_ok0 {attempt : Nat → ClassifierResult} {info : MessageInfo}
    (h0 : attempt 0 = .ok info) :
    runClassifier attempt = (1, [], .ok info) := by
  unfold runClassifier
  exact retryLoop_ok h0 2

theorem runClassifier_stop0 {attempt : Nat → ClassifierResult} {tag : String}
    (h0 : attempt 0 = .err tag) (t0 : tag ≠ "OpenAIError") :
    runClassifier attempt = (1, [], .err tag) := by
  unfold runClassifier
  exact retryLoop_err_stop h0 t0 2

theorem runClassifier_retry1_ok {attempt : Nat → ClassifierResult} {info : MessageInfo}
    (h0 : attempt 0 = .err "OpenAIError") (h1 : attempt 1 = .ok info) :
    runClassifier attempt = (2, [500], .ok info) := by
  simp [runClassifier, retryLoop, h0, h1]

theorem runClassifier_retry1_stop {attempt : Nat → ClassifierResult} {tag : String}
    (h0 : attempt 0 = .err "OpenAIError") (h1 : attempt 1 = .err tag)
    (t1 : tag ≠ "OpenAIError") :
    runClassifier attempt = (2, [500], .err tag) := by
  simp [runClassifier, retryLoop, h0, h1, t1]

theorem runClassifier_retry2_ok {attempt : Nat → ClassifierResult} {info : MessageInfo}
    (h0 : attempt 0 = .err "OpenAIError") (h1 : attempt 1 = .err "OpenAIError")
    (h2 : attempt 2 = .ok info) :
    runClassifier attempt = (3, [500, 500], .ok info) := by
  simp [runClassifier, retryLoop, h0, h1, h2]

theorem runClassifier_retry2_err {attempt : Nat → ClassifierResult} {tag : String}
    (h0 : attempt 0 = .err "OpenAIError") (h1 : attempt 1 = .err "OpenAIError")
    (h2 : attempt 2 = .err tag) :
    runClassifier attempt = (3, [500, 500], .err tag) := by
  simp [runClassifier, retryLoop, h0, h1, h2]

theorem runPipeline_no_hint {kw : String} {env : MsgEnv} {m : Message}
    (hmiss : (usedInfo env.attempt m).missingCodeFences = false) :
    ∀ t c, Action.postMessage t c ∉ (runPipeline kw env m).1.actions := by
  intro t c
  unfold runPipeline
  cases hm : eligibleMessage m with
  | false => simp
  | true =>
    simp only [if_true]
    cases env.channel with
    | none => simp
    | some ch =>
      by_cases hel : eligibleChannel kw ch = true
      · simp only [hel, if_true]
        cases env.threadResult with
        | error e => simp
        | ok tid =>
          cases env.controlsResult with
          | error e => simp
          | ok u =>
            simp only [hmiss, if_false, Bool.false_eq_true]
            simp
      · simp only [hel]
        simp

/-! ### Claims -/

/-- C1: for every incoming `MESSAGE_CREATE` event, a thread-creation
request is issued exactly when the message has type `DEFAULT`, its author
is not a bot, and the resolved channel has type `GUILD_TEXT` with a topic
containing the configured keyword substring; any message or channel
failing one of these rules yields no thread. -/
theorem thread_creation_eligibility (kw : String) (env : MsgEnv) (m : Message) :
    createsThread (handleMessage kw env m).trace = true ↔
      (m.type = MessageTypeDEFAULT ∧ m.author.bot ≠ some true ∧
        ∃ ch, env.channel = some ch ∧ ch.type = ChannelTypeGUILD_TEXT ∧
          ∃ t, ch.topic = some t ∧ kw.data <:+: t.data) := by
  rw [handleMessage_trace]
  constructor
  · intro h
    cases hm : eligibleMessage m with
    | false =>
      rw [runPipeline_not_eligible_message hm] at h
      simp [createsThread] at h
    | true =>
      cases hc : env.channel with
      | none =>
        rw [runPipeline_no_channel hm hc] at h
        simp [createsThread] at h
      | some ch =>
        cases hel : eligibleChannel kw ch with
        | false =>
          rw [runPipeline_bad_channel hm hc hel] at h
          simp [createsThread] at h
        | true =>
          obtain ⟨ht, hb⟩ := (eligibleMessage_iff m).mp hm
          obtain ⟨hct, t, htop, hinf⟩ := (eligibleChannel_iff kw ch).mp hel
          exact ⟨ht, hb, ch, rfl, hct, t, htop, hinf⟩
  · rintro ⟨ht, hb, ch, hc, hct, t, htop, hinf⟩
    have hm : eligibleMessage m = true := (eligibleMessage_iff m).mpr ⟨ht, hb⟩
    have hel : eligibleChannel kw ch = true :=
      (eligibleChannel_iff kw ch).mpr ⟨hct, t, htop, hinf⟩
    obtain ⟨rest, hact, -, -⟩ := runPipeline_eligible hm hc hel
    simp [createsThread, hact]

/-- C2: for every eligible message on which the retried classifier call
ultimately fails, the classification used is the deterministic fallback
`"{displayName}'s thread"` (nickname if present, else username) with both
code flags false, so no hint message is posted, and the thread-creation
request is still issued. -/
theorem classifier_failure_fallback (kw : String) (env : MsgEnv) (m : Message)
    (ch : Channel) (tag : String)
    (hm : eligibleMessage m = true) (hc : env.channel = some ch)
    (hel : eligibleChannel kw ch = true)
    (hfail : (runClassifier env.attempt).2.2 = .err tag) :
    usedInfo env.attempt m =
      ⟨displayName m ++ "'s thread", false, false⟩ ∧
    Action.startThread ch.id m.id
        (truncate (displayName m ++ "'s thread") 100) 1440
      ∈ (handleMessage kw env m).trace.actions ∧
    (∀ t c, Action.postMessage t c ∉ (handleMessage kw env m).trace.actions) := by
  have hinfo : usedInfo env.attempt m =
      ⟨displayName m ++ "'s thread", false, false⟩ := by
    unfold usedInfo
    rw [hfail]
    rfl
  have hmiss : (usedInfo env.attempt m).missingCodeFences = false := by
    rw [hinfo]; rfl
  refine ⟨hinfo, ?_, ?_⟩
  · obtain ⟨rest, hact, -, -⟩ := runPipeline_eligible hm hc hel
    rw [handleMessage_trace, hact, hinfo]
    simp
  · intro t c
    rw [handleMessage_trace]
    exact runPipeline_no_hint hmiss t c

theorem classifier_failure_fallback_witness :
    usedInfo exEnvFail.attempt exMessage =
      ⟨displayName exMessage ++ "'s thread", false, false⟩ ∧
    Action.startThread exChannel.id exMessage.id
        (truncate (displayName exMessage ++ "'s thread") 100) 1440
      ∈ (handleMessage "questions" exEnvFail exMessage).trace.actions ∧
    (∀ t c,
      Action.postMessage t c ∉
        (handleMessage "questions" exEnvFail exMessage).trace.actions) :=
  classifier_failure_fallback "questions" exEnvFail exMessage exChannel
    "OpenAIError" (by decide) rfl (by decide) (by decide)

/-- C3: the classifier call makes between 1 and 3 attempts; every
non-final attempt failed with the transient `"OpenAIError"` kind (so only
that kind is retried, at most twice); the inter-attempt delays are a fixed
500 ms each; a first failure of any other kind ends the call immediately
with no retry; and three consecutive transient failures exhaust exactly 3
attempts with delays `[500, 500]`. -/
theorem retry_policy_characterization (attempt : Nat → ClassifierResult) :
    1 ≤ (runClassifier attempt).1 ∧
    (runClassifier attempt).1 ≤ 3 ∧
    (∀ i, i + 1 < (runClassifier attempt).1 → attempt i = .err "OpenAIError") ∧
    (runClassifier attempt).2.1 =
      List.replicate ((runClassifier attempt).1 - 1) 500 ∧
    (∀ tag, attempt 0 = .err tag → tag ≠ "OpenAIError" →
      runClassifier attempt = (1, [], .err tag)) ∧
    ((∀ i, i < 3 → attempt i = .err "OpenAIError") →
      runClassifier attempt = (3, [500, 500], .err "OpenAIError")) := by
  cases h0 : attempt 0 with
  | ok info0 =>
    rw [runClassifier_ok0 h0]
    refine ⟨by norm_num, by norm_num, ?_, by simp, ?_, ?_⟩
    · intro i hi; omega
    · intro tag h ht; simp at h
    · intro hall; have := hall 0 (by norm_num); rw [h0] at this; simp at this
  | err tag0 =>
    by_cases t0 : tag0 = "OpenAIError"
    · subst t0
      cases h1 : attempt 1 with
      | ok info1 =>
        rw [runClassifier_retry1_ok h0 h1]
        refine ⟨by norm_num, by norm_num, ?_, by simp, ?_, ?_⟩
        · intro i hi
          have : i = 0 := by omega
          subst this; exact h0
        · intro tag h ht
          injection h with e
          exact absurd e.symm ht
        · intro hall
          have := hall 1 (by norm_num)
          rw [h1] at this; simp at this
      | err tag1 =>
        by_cases t1 : tag1 = "OpenAIError"
        · subst t1
          cases h2 : attempt 2 with
          | ok info2 =>
            rw [runClassifier_retry2_ok h0 h1 h2]
            refine ⟨by norm_num, by norm_num, ?_, by simp, ?_, ?_⟩
            · intro i hi
              have : i = 0 ∨ i = 1 := by omega
              rcases this with rfl | rfl
              exacts [h0, h1]
            · intro tag h ht
              injection h with e
              exact absurd e.symm ht
            · intro hall
              have := hall 2 (by norm_num)
              rw [h2] at this; simp at this
          | err tag2 =>
            rw [runClassifier_retry2_err h0 h1 h2]
            refine ⟨by norm_num, by norm_num, ?_, by simp, ?_, ?_⟩
            · intro i hi
              have : i = 0 ∨ i = 1 := by omega
              rcases this with rfl | rfl
              exacts [h0, h1]
            · intro tag h ht
              injection h with e
              exact absurd e.symm ht
            · intro hall
              have := hall 2 (by norm_num)
              rw [h2] at this
              injection this with e
              rw [e]
        · rw [runClassifier_retry1_stop h0 h1 t1]
          refine ⟨by norm_num, by norm_num, ?_, by simp, ?_, ?_⟩
          · intro i hi
            have : i = 0 := by omega
            subst this; exact h0
          · intro tag h ht
            injection h with e
            exact absurd e.symm ht
          · intro hall
            have := hall 1 (by norm_num)
            rw [h1] at this
            injection this with e
            exact absurd e t1
    · rw [runClassifier_stop0 h0 t0]
      refine ⟨by norm_num, by norm_num, ?_, by simp, ?_, ?_⟩
      · intro i hi; omega
      · intro tag h ht
        injection h with e
        rw [e]
      · intro hall
        have := hall 0 (by norm_num)
        rw [h0] at this
        injection this with e
        exact absurd e t0

/-- C4: for every eligible message the thread-creation request carries the
classification's `short_title` hard-truncated to at most 100 characters
and a fixed 1440-minute auto-archive duration; truncation leaves titles of
at most 100 characters unchanged and cuts a 150-character title to exactly
its first 100 characters. -/
theorem thread_name_truncation (kw : String) (env : MsgEnv) (m : Message)
    (ch : Channel)
    (hm : eligibleMessage m = true) (hc : env.channel = some ch)
    (hel : eligibleChannel kw ch = true) :
    Action.startThread ch.id m.id
        (truncate (usedInfo env.attempt m).short_title 100) 1440
      ∈ (handleMessage kw env m).trace.actions ∧
    (∀ s : String, (truncate s 100).length ≤ 100) ∧
    (∀ s : String, s.length ≤ 100 → truncate s 100 = s) ∧
    (∀ s : String, s.length = 150 →
      (truncate s 100).data = s.data.take 100 ∧ (truncate s 100).length = 100) := by
  refine ⟨?_, ?_, ?_, ?_⟩
  · obtain ⟨rest, hact, -, -⟩ := runPipeline_eligible hm hc hel
    rw [handleMessage_trace, hact]
    simp
  · intro s
    show (s.data.take 100).length ≤ 100
    rw [List.length_take]
    exact min_le_left _ _
  · intro s hs
    show (⟨s.data.take 100⟩ : String) = s
    rw [List.take_of_length_le hs]
  · intro s hs
    refine ⟨rfl, ?_⟩
    show (s.data.take 100).length = 100
    rw [List.length_take]
    have h150 : s.data.length = 150 := hs
    rw [h150]
    decide

theorem thread_name_truncation_witness :
    Action.startThread exChannel.id exMessage.id
        (truncate (usedInfo exEnvOk.attempt exMessage).short_title 100) 1440
      ∈ (handleMessage "questions" exEnvOk exMessage).trace.actions ∧
    (∀ s : String, (truncate s 100).length ≤ 100) ∧
    (∀ s : String, s.length ≤ 100 → truncate s 100 = s) ∧
    (∀ s : String, s.length = 150 →
      (truncate s 100).data = s.data.take 100 ∧ (truncate s 100).length = 100) :=
  thread_name_truncation "questions" exEnvOk exMessage exChannel
    (by decide) rfl (by decide)

/-- C5: for every eligible message whose classifier call succeeds, the
issued actions are exactly the channel lookup, the thread creation, the
control message, and then — exactly when
`has_code_examples && !has_code_fences` — one hint message with the fixed
template; for every other flag combination no hint message is posted. -/
theorem hint_message_rule (kw : String) (env : MsgEnv) (m : Message)
    (ch : Channel) (info : MessageInfo) (tid : String)
    (hm : eligibleMessage m = true) (hc : env.channel = some ch)
    (hel : eligibleChannel kw ch = true)
    (hok : (runClassifier env.attempt).2.2 = .ok info)
    (hth : env.threadResult = .ok tid)
    (hcm : env.controlsResult = .ok ())
    (hh : env.hintResult = .ok ()) :
    (handleMessage kw env m).trace.actions =
      [Action.getChannel (m.guild_id.getD "") m.channel_id,
       Action.startThread ch.id m.id (truncate info.short_title 100) 1440,
       Action.postControls tid ("edit_" ++ m.author.id) ("archive_" ++ m.author.id)]
      ++ (if info.has_code_examples && !info.has_code_fences then
            [Action.postMessage tid hintContent] else []) ∧
    ((info.has_code_examples && !info.has_code_fences) = false →
      ∀ t c, Action.postMessage t c ∉ (handleMessage kw env m).trace.actions) := by
  have hinfo : usedInfo env.attempt m = info := by
    unfold usedInfo
    rw [hok]
  rw [handleMessage_trace]
  constructor
  · rw [runPipeline_success hm hc hel hth hcm hh, hinfo]
    rfl
  · intro hmiss t c
    refine runPipeline_no_hint ?_ t c
    rw [hinfo]
    exact hmiss

theorem hint_message_rule_witness :
    (handleMessage "questions" exEnvOk exMessage).trace.actions =
      [Action.getChannel (exMessage.guild_id.getD "") exMessage.channel_id,
       Action.startThread exChannel.id exMessage.id
         (truncate (MessageInfo.mk "Title" true false).short_title 100) 1440,
       Action.postControls "t1" ("edit_" ++ exMessage.author.id)
         ("archive_" ++ exMessage.author.id)]
      ++ (if (MessageInfo.mk "Title" true false).has_code_examples &&
            !(MessageInfo.mk "Title" true false).has_code_fences then
            [Action.postMessage "t1" hintContent] else []) ∧
    (((MessageInfo.mk "Title" true false).has_code_examples &&
        !(MessageInfo.mk "Title" true false).has_code_fences) = false →
      ∀ t c,
        Action.postMessage t c ∉ (handleMessage "questions" exEnvOk exMessage).trace.actions) :=
  hint_message_rule "questions" exEnvOk exMessage exChannel
    (MessageInfo.mk "Title" true false) "t1" (by decide) rfl (by decide)
    (by decide) rfl rfl rfl

theorem splitUnderscore_no_underscore (l : List Char)
    (h : l.contains '_' = false) : splitUnderscore l = [l] := by
  induction l with
  | nil => rfl
  | cons c cs ih =>
    simp only [List.contains_cons, Bool.or_eq_false_iff] at h
    obtain ⟨h1, h2⟩ := h
    have hc : ¬ c = '_' := by
      intro e
      subst e
      simp at h1
    unfold splitUnderscore
    rw [if_neg hc, ih h2]

theorem splitUnderscore_around (p rest : List Char)
    (hp : p.contains '_' = false) :
    splitUnderscore (p ++ '_' :: rest) = p :: splitUnderscore rest := by
  induction p with
  | nil =>
    show splitUnderscore ('_' :: rest) = [] :: splitUnderscore rest
    conv_lhs => unfold splitUnderscore
    rw [if_pos rfl]
  | cons c cs ih =>
    simp only [List.contains_cons, Bool.or_eq_false_iff] at hp
    obtain ⟨h1, h2⟩ := hp
    have hc : ¬ c = '_' := by
      intro e
      subst e
      simp at h1
    show splitUnderscore (c :: (cs ++ '_' :: rest)) = (c :: cs) :: splitUnderscore rest
    conv_lhs => unfold splitUnderscore
    rw [if_neg hc, ih h2]

theorem parseAuthorId_edit (aid : String) (haid : aid.data.contains '_' = false) :
    parseAuthorId ("edit_" ++ aid) = some aid := by
  unfold parseAuthorId
  have h1 : ("edit_" ++ aid).data = ['e', 'd', 'i', 't'] ++ '_' :: aid.data := by
    rw [String.data_append]
    rfl
  rw [h1, splitUnderscore_around _ _ (by decide),
    splitUnderscore_no_underscore _ haid]
  rfl

theorem parseAuthorId_archive (aid : String) (haid : aid.data.contains '_' = false) :
    parseAuthorId ("archive_" ++ aid) = some aid := by
  unfold parseAuthorId
  have h1 : ("archive_" ++ aid).data =
      ['a', 'r', 'c', 'h', 'i', 'v', 'e'] ++ '_' :: aid.data := by
    rw [String.data_append]
    rfl
  rw [h1, splitUnderscore_around _ _ (by decide),
    splitUnderscore_no_underscore _ haid]
  rfl

/-- C6: an edit/archive component interaction is permitted exactly when
the invoking user's id equals the author id parsed from the custom id
(`custom_id.split("_")[1]`) or the member holds the `MANAGE_CHANNELS`
bit: a matching user proceeds regardless of permission bits, a holder of
the bit proceeds regardless of the id, and a non-matching user without
the bit is denied before the wrapped effect runs; for the custom ids the
bot creates (`edit_{authorId}`/`archive_{authorId}` with an
underscore-free author id) the parsed author id is the substring after
the first underscore. -/
theorem component_authorization (ctx : InteractionCtx)
    (self : Unit → IxEff Response) :
    (parseAuthorId ctx.custom_id = some ctx.userId →
      withEditPermissions ctx self = self ()) ∧
    (hasManage ctx.permissions = true →
      withEditPermissions ctx self = self ()) ∧
    (parseAuthorId ctx.custom_id ≠ some ctx.userId →
      hasManage ctx.permissions = false →
      withEditPermissions ctx self =
        ([], .error (.permissions "edit" "thread"))) ∧
    (∀ aid : String, aid.data.contains '_' = false →
      parseAuthorId ("edit_" ++ aid) = some aid ∧
      parseAuthorId ("archive_" ++ aid) = some aid) := by
  refine ⟨?_, ?_, ?_,
    fun aid h => ⟨parseAuthorId_edit aid h, parseAuthorId_archive aid h⟩⟩
  · intro h
    have hce : canEdit ctx = true := by simp [canEdit, h]
    simp [withEditPermissions, hce]
  · intro h
    have hce : canEdit ctx = true := by simp [canEdit, h]
    simp [withEditPermissions, hce]
  · intro h1 h2
    have hce : canEdit ctx = false := by
      unfold canEdit
      rw [h2, Bool.or_false]
      exact beq_eq_false_iff_ne.mpr h1
    simp [withEditPermissions, hce]

/-- C7 (counterexample): a denied interaction on the archive entry point
does not produce the ephemeral message
`"You don't have permission to archive this thread."`; it produces the
edit wording instead, because `withEditPermissions` hardcodes
`action: "edit", subject: "thread"` for both entry points. -/
theorem archive_denial_wording_counterexample :
    (runIx (archiveHandler exCtxDenied)).2 =
      some (.ephemeral "You don't have permission to edit this thread.") ∧
    (runIx (archiveHandler exCtxDenied)).2 ≠
      some (.ephemeral "You don't have permission to archive this thread.") := by
  constructor
  · rfl
  · decide

/-- C7 (amended): when authorization is denied, the handler responds with
an ephemeral message whose content is exactly
`"You don't have permission to {action} this {subject}."`; both the
title-edit and the archive entry point raise the denial with
action `"edit"` and subject `"thread"`, so the message is always
`"You don't have permission to edit this thread."`. -/
theorem denial_response_wording (ctx : InteractionCtx)
    (channel : Option Channel) (h : canEdit ctx = false) :
    (runIx (archiveHandler ctx)).2 =
      some (.ephemeral "You don't have permission to edit this thread.") ∧
    (runIx (editHandler channel ctx)).2 =
      some (.ephemeral "You don't have permission to edit this thread.") := by
  unfold archiveHandler editHandler withEditPermissions
  simp [h, runIx]

theorem denial_response_wording_witness :
    (runIx (archiveHandler exCtxDenied)).2 =
      some (.ephemeral "You don't have permission to edit this thread.") ∧
    (runIx (editHandler (some exChannel) exCtxDenied)).2 =
      some (.ephemeral "You don't have permission to edit this thread.") :=
  denial_response_wording exCtxDenied (some exChannel) (by decide)

/-- C8: every error on the pipeline's error channel is caught at the
handler's outer boundary and logged (`ParseError`s at debug level, the
rest as errors); the handler is a total function into `HandlerOutcome`,
so no error propagates out of it, and processing a stream of events is
the independent per-event map, so one failing event leaves the handling
of the others unchanged. -/
theorem pipeline_error_isolation (kw : String) (env : MsgEnv) (m : Message) :
    ((runPipeline kw env m).2 = none →
      handleMessage kw env m = ⟨(runPipeline kw env m).1, none, none⟩) ∧
    (∀ pe, (runPipeline kw env m).2 = some pe →
      (handleMessage kw env m).debugLogged = some pe ∨
      (handleMessage kw env m).errorLogged = some pe) ∧
    (∀ evs : List (Message × MsgEnv),
      handleEvents kw ((m, env) :: evs) =
        handleMessage kw env m :: handleEvents kw evs) := by
  refine ⟨?_, ?_, fun evs => rfl⟩
  · intro h
    unfold handleMessage
    rcases hr : runPipeline kw env m with ⟨t, er⟩
    rw [hr] at h
    simp only at h
    subst h
    rfl
  · intro pe hpe
    unfold handleMessage
    rcases hr : runPipeline kw env m with ⟨t, er⟩
    rw [hr] at hpe
    simp only at hpe
    subst hpe
    cases pe with
    | parse w => left; rfl
    | cacheMiss => right; rfl
    | rest op e => right; rfl

/-- C9: for every modal submission on id `"edit"`, the submitted title —
the empty string included — is passed unmodified as the new channel name
in the single rename request, and the interaction is acknowledged with a
deferred update; no validation or re-authorization is applied. -/
theorem edit_submit_passthrough (title : String) (ctx : InteractionCtx) :
    editSubmitHandler title ctx =
      ([Action.modifyChannelName ctx.channel_id title], .ok .deferredUpdate) ∧
    editSubmitHandler "" ctx =
      ([Action.modifyChannelName ctx.channel_id ""], .ok .deferredUpdate) ∧
    Response.deferredUpdate.callbackType = DEFERRED_UPDATE_MESSAGE :=
  ⟨rfl, rfl, rfl⟩

/-- C10: when authorization is denied, the wrapped effect never runs: a
denied archive interaction issues no channel modification and a denied
edit interaction performs no channel lookup and produces no modal — both
handlers return the permission error with an empty action trace. -/
theorem denial_is_side_effect_free (ctx : InteractionCtx)
    (channel : Option Channel) (h : canEdit ctx = false) :
    archiveHandler ctx = ([], .error (.permissions "edit" "thread")) ∧
    editHandler channel ctx = ([], .error (.permissions "edit" "thread")) := by
  unfold archiveHandler editHandler withEditPermissions
  simp [h]

theorem denial_is_side_effect_free_witness :
    archiveHandler exCtxDenied = ([], .error (.permissions "edit" "thread")) ∧
    editHandler (some exChannel) exCtxDenied =
      ([], .error (.permissions "edit" "thread")) :=
  denial_is_side_effect_free exCtxDenied (some exChannel) (by decide)

end AutoThreads
